import Mathlib

/-!
# Verification of the `Router` connection lifecycle (`router.py`)

This file gives a shallow embedding of the `Router` class of `router.py`
(the connection multiplexer / lazy session manager) and proves properties
about its connection lifecycle.

Modelling conventions:
* `MCPConnection` objects are identified by the natural number order in which
  they are constructed (`Router.nextConnId` counts constructions); the external
  behaviour of a connection (whether its `connect` handshake succeeds, what its
  `call_tool` returns, whether its `aclose` succeeds and how long it takes) is
  supplied by a `World` of oracles keyed by that identity.
* Python dictionaries (`self.connections`, `self.servers`, the environment,
  the parsed config) are association lists with `alGet` / `alSet`.
* Each operation additionally returns the list of observable `Event`s it
  performs (connection construction + `connect` attempt, tool invocation,
  close, registry insertion, environment reads, matcher initialisation), so
  that "never connects", "closes exactly once", etc. are statable.
* Exceptions are `Except` results: `RError` for the async methods, `InitError`
  for `__init__` (in Python all of these are raised as `ValueError`; the
  distinct constructors record the distinct raise sites).
-/

/-- One entry of a parsed `mcpServers` config value (`ServerConfig(**config_data)`);
    the concrete fields are opaque to the Router, so it is an opaque record. -/
structure ServerConfig where
  fields : List (String × String)
deriving DecidableEq, Repr

/-- `Server(name=name, config=ServerConfig(**config_data))` from the schemas module. -/
structure Server where
  name : String
  config : ServerConfig
deriving DecidableEq, Repr

/-- Association-list lookup, modelling Python `dict.get`. -/
def alGet {α : Type} : List (String × α) → String → Option α
  | [], _ => none
  | (k, v) :: rest, key => if k = key then some v else alGet rest key

/-- Association-list update, modelling Python `dict[key] = value`. -/
def alSet {α : Type} : List (String × α) → String → α → List (String × α)
  | [], key, val => [(key, val)]
  | (k, v) :: rest, key, val =>
      if k = key then (key, val) :: rest else (k, v) :: alSet rest key val

/-- Observable events performed by the Router's methods. -/
inductive Event where
  | connect : String → Nat → Event
  | toolCall : String → String → Nat → Event
  | close : Nat → Event
  | registryAdd : String → Event
  | loadDotenv : Event
  | matcherInit : Event
  | envRead : String → Event
  | matcherSetup : Event
  | matcherLoad : Event
deriving DecidableEq, Repr

/-- Errors raised by the Router's async methods. -/
inductive RError where
  | unknownServer : String → RError
  | connectError : RError
  | callError : RError
  | closeError : RError
deriving DecidableEq, Repr

/-- External behaviour of `MCPConnection` objects, keyed by construction order:
    whether connection `c`'s `connect()` handshake succeeds, what its
    `call_tool(tool, params)` returns, whether its `aclose()` succeeds, and how
    many scheduler steps its `aclose()` takes (used by the `asyncio.gather`
    timing model). -/
structure World where
  connectOk : Nat → Bool
  callRes : Nat → String → List (String × String) → Except String String
  closeOk : Nat → Bool
  closeSteps : Nat → Nat

/-- The `Router`'s mutable state: `self.connections` (established connections),
    `self.servers` (the registry), and the number of `MCPConnection` objects
    constructed so far (connection identity). -/
structure Router where
  connections : List (String × Nat)
  servers : List (String × Server)
  nextConnId : Nat
deriving DecidableEq, Repr

/-- `Router.call_tool(server_name, tool_name, params)`: reuse the pooled
    connection when present; otherwise reject unknown servers, else construct
    an `MCPConnection`, `connect()` it, store it in the pool on success, and
    invoke the tool. Returns (result, updated state, events). -/
def Router.call_tool (st : Router) (w : World) (serverName toolName : String)
    (params : Option (List (String × String))) :
    Except RError String × Router × List Event :=
  match alGet st.connections serverName with
  | some connection =>
      match w.callRes connection toolName (params.getD []) with
      | .ok r => (.ok r, st, [Event.toolCall serverName toolName connection])
      | .error _ => (.error .callError, st, [Event.toolCall serverName toolName connection])
  | none =>
      match alGet st.servers serverName with
      | none => (.error (.unknownServer serverName), st, [])
      | some _ =>
          let connection := st.nextConnId
          let st1 : Router := { st with nextConnId := st.nextConnId + 1 }
          if w.connectOk connection then
            let st2 : Router :=
              { st1 with connections := alSet st1.connections serverName connection }
            match w.callRes connection toolName (params.getD []) with
            | .ok r =>
                (.ok r, st2,
                 [Event.connect serverName connection,
                  Event.toolCall serverName toolName connection])
            | .error _ =>
                (.error .callError, st2,
                 [Event.connect serverName connection,
                  Event.toolCall serverName toolName connection])
          else
            (.error .connectError, st1, [Event.connect serverName connection])

/-- A sequence of non-concurrent `call_tool` invocations, collecting states and
    traces; results of individual calls are discarded. -/
def Router.run_calls (st : Router) (w : World) :
    List (String × String × Option (List (String × String))) → Router × List Event
  | [] => (st, [])
  | (s, t, p) :: rest =>
      let r1 := st.call_tool w s t p
      let r2 := Router.run_calls r1.2.1 w rest
      (r2.1, r1.2.2 ++ r2.2)

/-- `Router.aclose()`: `asyncio.gather` of `conn.aclose()` over every pooled
    connection. Every close is issued; the gather result is the first failure
    if any close fails. The pool is left untouched (the source does not clear
    `self.connections`). -/
def Router.aclose (st : Router) (w : World) :
    Except RError Unit × Router × List Event :=
  (if st.connections.all (fun kv => w.closeOk kv.2) then .ok () else .error .closeError,
   st,
   st.connections.map (fun kv => Event.close kv.2))

/-- `Router.__aexit__(exc_type, exc, tb)`: awaits `self.aclose()` regardless of
    the exception state of the scope. -/
def Router.aexit (st : Router) (w : World)
    (excType exc tb : Option String) :
    Except RError Unit × Router × List Event :=
  st.aclose w

/-! ## Construction (`Router.__init__`) -/

/-- The `config` argument of `Router.__init__`: a dict (represented by its
    parsed `mcpServers` mapping, `{}` when the key is missing), a `Path`, or
    any other Python value. -/
inductive ConfigInput where
  | dict : List (String × ServerConfig) → ConfigInput
  | path : String → ConfigInput
  | other : ConfigInput
deriving DecidableEq, Repr

/-- The process environment (after `load_dotenv`), as seen by `os.getenv`. -/
structure Env where
  vars : List (String × String)
deriving DecidableEq, Repr

/-- The filesystem: existing files with their parsed `mcpServers` content
    (content is irrelevant for files only tested with `os.path.exists`). -/
structure FS where
  files : List (String × List (String × ServerConfig))
deriving DecidableEq, Repr

/-- Whether a path exists on the filesystem. -/
def fsExists (fs : FS) (p : String) : Bool := (alGet fs.files p).isSome

/-- `PROJECT_ROOT / "config" / "mcp_arg.json"`, the default `MCP_DATA_PATH`. -/
def defaultDataPath : String := "PROJECT_ROOT/config/mcp_arg.json"

/-- Errors raised by `Router.__init__` (all `ValueError` in Python, at three
    distinct raise sites). -/
inductive InitError where
  | badConfigType
  | missingApiKey
  | missingDataPath
deriving DecidableEq, Repr

/-- `os.getenv(name)`. -/
def getenv (env : Env) (name : String) : Option String := alGet env.vars name

/-- `os.getenv(name, default)`. -/
def getenvD (env : Env) (name : String) (dflt : String) : String :=
  (alGet env.vars name).getD dflt

/-- Python truthiness test `not x` on an optional string (`None` and `""` are
    falsy). -/
def falsyOpt : Option String → Bool
  | none => true
  | some s => s.isEmpty

/-- The guard `if not api_key:` of `__init__`. -/
def apiKeyMissing (env : Env) : Bool :=
  falsyOpt (getenv env "DASHSCOPE_API_KEY")

/-- The guard `if not data_path or not os.path.exists(data_path):` of
    `__init__`, on the resolved `MCP_DATA_PATH`. -/
def dataPathMissing (env : Env) (fs : FS) : Bool :=
  (getenvD env "MCP_DATA_PATH" defaultDataPath).isEmpty ||
    !(fsExists fs (getenvD env "MCP_DATA_PATH" defaultDataPath))

/-- The loop `for name, config_data in self.config.get("mcpServers", {}).items():`
    building `self.servers`. -/
def buildRegistry (cfgServers : List (String × ServerConfig)) : List (String × Server) :=
  cfgServers.foldl (fun acc nc => alSet acc nc.1 ⟨nc.1, nc.2⟩) []

/-- The tail of `Router.__init__` after `self.config` has been determined:
    build the registry, `load_dotenv`, construct the `ToolMatcher`, read the
    environment, check the mandatory parameters, set up and load the matcher. -/
def initAfterConfig (cfgServers : List (String × ServerConfig)) (env : Env) (fs : FS) :
    Except InitError Router × List Event :=
  let registry := buildRegistry cfgServers
  let evs := cfgServers.map (fun nc => Event.registryAdd nc.1) ++
    [Event.loadDotenv, Event.matcherInit,
     Event.envRead "DASHSCOPE_BASE_URL", Event.envRead "DASHSCOPE_API_KEY",
     Event.envRead "MCP_DATA_PATH"]
  if apiKeyMissing env then (.error .missingApiKey, evs)
  else if dataPathMissing env fs then (.error .missingDataPath, evs)
  else (.ok { connections := [], servers := registry, nextConnId := 0 },
        evs ++ [Event.matcherSetup, Event.matcherLoad])

/-- `Router.__init__(config)`: a dict is taken as is; a `Path` is read when it
    exists and otherwise yields an empty server list (with a warning, not an
    error); anything else raises `ValueError` immediately. -/
def Router.init (config : ConfigInput) (env : Env) (fs : FS) :
    Except InitError Router × List Event :=
  match config with
  | .other => (.error .badConfigType, [])
  | .dict m => initAfterConfig m env fs
  | .path p =>
      match alGet fs.files p with
      | some m => initAfterConfig m env fs
      | none => initAfterConfig [] env fs

/-! ## Timing model of `asyncio.gather` for `Router.aclose`

`aclose` awaits `asyncio.gather(*[conn.aclose() for conn in
self.connections.values()])` (without `return_exceptions`). The gather wraps
every close coroutine in a task; the event loop then interleaves their steps.
The gather future resolves as soon as either some close has raised (it resolves
with that first failure) or all closes have finished; tasks that are still
running are NOT cancelled and keep executing. A schedule is the order in which
the event loop runs single steps of the close coroutines. -/

/-- One close coroutine in flight during `aclose`: how many scheduler steps it
    needs to finish, and whether it succeeds at its last step. -/
structure CloseJob where
  steps : Nat
  ok : Bool
deriving DecidableEq, Repr

/-- The close coroutines spawned by `Router.aclose`, in pool order. -/
def Router.acloseJobs (st : Router) (w : World) : List CloseJob :=
  st.connections.map (fun kv => { steps := w.closeSteps kv.2, ok := w.closeOk kv.2 })

/-- Number of steps job `i` needs (0 for an out-of-range index). -/
def jobSteps (jobs : List CloseJob) (i : Nat) : Nat :=
  ((jobs.get? i).map CloseJob.steps).getD 0

/-- Time (number of executed schedule slots) at which a job that needs `need`
    more steps of index `i` finishes under the given schedule; if the schedule
    ends first, this is the schedule's length. -/
def finishTime (i : Nat) (need : Nat) : List Nat → Nat
  | [] => 0
  | j :: rest =>
      match need with
      | 0 => 0
      | n + 1 => 1 + finishTime i (if j = i then n else n + 1) rest

/-- A schedule that runs every close coroutine to completion: each job index
    occurs exactly as many times as the job has steps (the event loop does not
    cancel tasks when the gather future resolves with a failure). -/
def completeSched (jobs : List CloseJob) (sched : List Nat) : Bool :=
  (List.range jobs.length).all (fun i => sched.count i = jobSteps jobs i) &&
    sched.all (fun j => j < jobs.length)

/-- Time at which the last close coroutine finishes. -/
def allDoneTime (jobs : List CloseJob) (sched : List Nat) : Nat :=
  (List.range jobs.length).foldl
    (fun m i => max m (finishTime i (jobSteps jobs i) sched)) 0

/-- Indices of close coroutines whose `aclose` raises. -/
def failingIdxs (jobs : List CloseJob) : List Nat :=
  (List.range jobs.length).filter
    (fun i => ((jobs.get? i).map CloseJob.ok).getD true = false)

/-- Time at which the `await asyncio.gather(...)` inside `Router.aclose`
    resolves: at the first failure when some close fails, else when all closes
    have finished. -/
def gatherTime (jobs : List CloseJob) (sched : List Nat) : Nat :=
  match failingIdxs jobs with
  | [] => allDoneTime jobs sched
  | i :: rest =>
      (rest.map (fun j => finishTime j (jobSteps jobs j) sched)).foldl min
        (finishTime i (jobSteps jobs i) sched)

/-! ## Interleaving model of two concurrent `call_tool` invocations

`call_tool` has a suspension point at `await connection.connect()`: before it,
the coroutine has read `self.connections`, checked `self.servers` and
constructed the `MCPConnection`; after it, the coroutine stores the connection
in `self.connections` and issues the tool call. Two coroutines A and B running
`call_tool` for the same server share `pool`/`servers`/`nextConnId`; a schedule
is the order in which the event loop advances them (connects succeed). -/

/-- Progress of one in-flight `call_tool` coroutine. -/
inductive Phase where
  | ready
  | connecting : Nat → Phase
  | finished : Nat → Phase
  | failed
deriving DecidableEq, Repr

/-- Shared Router state plus the progress of two concurrent `call_tool`
    coroutines A and B and the trace of events so far. -/
structure RaceState where
  pool : List (String × Nat)
  servers : List (String × Server)
  nextConnId : Nat
  pa : Phase
  pb : Phase
  trace : List Event
deriving DecidableEq, Repr

/-- Phase of coroutine A (`who = true`) or B (`who = false`). -/
def phaseOf (cs : RaceState) (who : Bool) : Phase :=
  if who then cs.pa else cs.pb

/-- Replace the phase of the given coroutine. -/
def setPhase (cs : RaceState) (who : Bool) (ph : Phase) : RaceState :=
  if who then { cs with pa := ph } else { cs with pb := ph }

/-- Advance one coroutine by one step of `call_tool srv tool`:
    from `ready`, it reads the pool (reusing a present connection and calling
    the tool at once), rejects an unknown server, or constructs a fresh
    `MCPConnection` and suspends in its `connect()`; from `connecting c`, the
    handshake returns, the coroutine stores `c` in the shared pool and calls
    the tool. -/
def raceStep (srv tool : String) (cs : RaceState) (who : Bool) : RaceState :=
  match phaseOf cs who with
  | .ready =>
      match alGet cs.pool srv with
      | some c =>
          setPhase { cs with trace := cs.trace ++ [Event.toolCall srv tool c] } who (.finished c)
      | none =>
          match alGet cs.servers srv with
          | none => setPhase cs who .failed
          | some _ =>
              let c := cs.nextConnId
              setPhase
                { cs with nextConnId := c + 1, trace := cs.trace ++ [Event.connect srv c] }
                who (.connecting c)
  | .connecting c =>
      setPhase
        { cs with pool := alSet cs.pool srv c,
                  trace := cs.trace ++ [Event.toolCall srv tool c] }
        who (.finished c)
  | _ => cs

/-- Run the event loop over a schedule of coroutine choices. -/
def raceRun (srv tool : String) (cs : RaceState) (sched : List Bool) : RaceState :=
  sched.foldl (raceStep srv tool) cs

/-! ## Concrete instances used by the witnesses -/

/-- A world where every handshake, tool call and close succeeds. -/
def wTriv : World :=
  { connectOk := fun _ => true, callRes := fun _ _ _ => .ok "res",
    closeOk := fun _ => true, closeSteps := fun _ => 1 }

/-- A world where the first constructed connection fails its handshake and
    every later one succeeds. -/
def wFailFirst : World :=
  { connectOk := fun c => c != 0, callRes := fun _ _ _ => .ok "res",
    closeOk := fun _ => true, closeSteps := fun _ => 1 }

/-- A world where connection 0's close fails after 1 step and every other
    close succeeds after 2 steps. -/
def wCloseAFails : World :=
  { connectOk := fun _ => true, callRes := fun _ _ _ => .ok "res",
    closeOk := fun c => c != 0, closeSteps := fun c => if c = 0 then 1 else 2 }

/-- A registered server named `"a"`. -/
def srvA : Server := { name := "a", config := { fields := [] } }

/-- A registered server named `"b"`. -/
def srvB : Server := { name := "b", config := { fields := [] } }

/-- A Router with an empty registry and an empty pool. -/
def routerEmpty : Router := { connections := [], servers := [], nextConnId := 0 }

/-- A freshly constructed Router knowing server `"a"`. -/
def routerA : Router := { connections := [], servers := [("a", srvA)], nextConnId := 0 }

/-- A Router with established connections 0 (to `"a"`) and 1 (to `"b"`). -/
def routerAB : Router :=
  { connections := [("a", 0), ("b", 1)], servers := [("a", srvA), ("b", srvB)],
    nextConnId := 2 }

/-- An environment carrying the mandatory credential and a data path. -/
def envOk : Env := { vars := [("DASHSCOPE_API_KEY", "k"), ("MCP_DATA_PATH", "/d.json")] }

/-- An environment missing `DASHSCOPE_API_KEY`. -/
def envNoKey : Env := { vars := [("MCP_DATA_PATH", "/d.json")] }

/-- An environment carrying the mandatory credential but no `MCP_DATA_PATH`. -/
def envKeyOnly : Env := { vars := [("DASHSCOPE_API_KEY", "k")] }

/-- A filesystem on which only the data file `/d.json` exists. -/
def fsData : FS := { files := [("/d.json", [])] }

/-- A config dict declaring the single server `"a"`. -/
def cfgDictA : ConfigInput := ConfigInput.dict [("a", { fields := [] })]

/-- Two `call_tool` coroutines for the registered but not-yet-connected server
    `"a"`, both about to run their first step. -/
def raceInit : RaceState :=
  { pool := [], servers := [("a", srvA)], nextConnId := 0,
    pa := .ready, pb := .ready, trace := [] }

/-! ## Lemmas about association lists -/

theorem alGet_alSet_self {α : Type} (l : List (String × α)) (k : String) (v : α) :
    alGet (alSet l k v) k = some v := by
  induction l with
  | nil => simp [alSet, alGet]
  | cons kv rest ih =>
      obtain ⟨k1, v1⟩ := kv
      by_cases h : k1 = k
      · simp [alSet, h, alGet]
      · simp [alSet, h, alGet, ih]

theorem alGet_alSet_ne {α : Type} (l : List (String × α)) (k k1 : String) (v : α)
    (h : k ≠ k1) : alGet (alSet l k v) k1 = alGet l k1 := by
  induction l with
  | nil => simp [alSet, alGet, h]
  | cons kv rest ih =>
      obtain ⟨k2, v2⟩ := kv
      by_cases h2 : k2 = k
      · subst h2
        simp [alSet, alGet, h]
      · simp [alSet, h2, alGet, ih]

/-! ## Claim theorems -/

/-- C5: a `call_tool` for a server name absent from both the pool and the
    registry fails with the unknown-server error, performs no connect, and
    leaves the Router state entirely unchanged. -/
theorem Router.call_tool_unknown_server (st : Router) (w : World) (s t : String)
    (p : Option (List (String × String)))
    (hpool : alGet st.connections s = none) (hreg : alGet st.servers s = none) :
    st.call_tool w s t p = (.error (.unknownServer s), st, []) := by
  simp [Router.call_tool, hpool, hreg]

/-- Witness for C5: calling tool `"x"` on the undeclared server `"nope"` of a
    Router with an empty registry fails with the unknown-server error and
    changes nothing. -/
theorem Router.call_tool_unknown_server_instance :
    routerEmpty.call_tool wTriv "nope" "x" (some []) =
      (.error (.unknownServer "nope"), routerEmpty, []) :=
  Router.call_tool_unknown_server routerEmpty wTriv "nope" "x" (some []) rfl rfl

/-- C10: constructing a Router from a config that is neither a dict nor a Path
    raises `ValueError` at once: no registry entry is built, the matcher is not
    instantiated and no environment variable is read (the event trace is
    empty). -/
theorem Router.init_rejects_non_dict_non_path (env : Env) (fs : FS) :
    Router.init .other env fs = (.error .badConfigType, []) := rfl

/-- C8: `__aexit__` invokes the aggregate shutdown unconditionally — for every
    exception state (a propagating error or none), it behaves exactly as
    `aclose`, whose trace closes every pooled connection. -/
theorem Router.aexit_unconditional_shutdown (st : Router) (w : World)
    (excType exc tb : Option String) :
    st.aexit w excType exc tb = st.aclose w ∧
    ∀ kv ∈ st.connections, Event.close kv.2 ∈ (st.aexit w excType exc tb).2.2 := by
  refine ⟨rfl, ?_⟩
  intro kv hkv
  exact List.mem_map.mpr ⟨kv, hkv, rfl⟩

/-- Witness for C8: exiting the scope with a propagating `RuntimeError` still
    runs the aggregate shutdown, closing connection 1 of a two-connection
    Router. -/
theorem Router.aexit_unconditional_shutdown_instance :
    routerAB.aexit wTriv (some "RuntimeError") (some "boom") (some "tb") =
      routerAB.aclose wTriv ∧
    Event.close 1 ∈
      (routerAB.aexit wTriv (some "RuntimeError") (some "boom") (some "tb")).2.2 :=
  ⟨(Router.aexit_unconditional_shutdown routerAB wTriv (some "RuntimeError")
      (some "boom") (some "tb")).1,
   (Router.aexit_unconditional_shutdown routerAB wTriv (some "RuntimeError")
      (some "boom") (some "tb")).2 ("b", 1) (by decide)⟩

/-- C2: when the handshake of the freshly constructed connection fails,
    `call_tool` reports the connect failure, adds no entry to the pool (the
    connection map is unchanged), and a subsequent call for the same server
    attempts a fresh connect (its trace contains a connect attempt with a new
    connection identity) instead of observing a cached failure. -/
theorem Router.call_tool_connect_failure (st : Router) (w : World) (s t t2 : String)
    (p p2 : Option (List (String × String))) (srv : Server)
    (hpool : alGet st.connections s = none)
    (hreg : alGet st.servers s = some srv)
    (hfail : w.connectOk st.nextConnId = false) :
    (st.call_tool w s t p).1 = .error .connectError ∧
    (st.call_tool w s t p).2.1.connections = st.connections ∧
    (st.call_tool w s t p).2.1.servers = st.servers ∧
    (st.call_tool w s t p).2.1.nextConnId = st.nextConnId + 1 ∧
    Event.connect s (st.nextConnId + 1) ∈
      ((st.call_tool w s t p).2.1.call_tool w s t2 p2).2.2 := by
  have hct : st.call_tool w s t p =
      (.error .connectError, { st with nextConnId := st.nextConnId + 1 },
       [Event.connect s st.nextConnId]) := by
    simp [Router.call_tool, hpool, hreg, hfail]
  rw [hct]
  refine ⟨rfl, rfl, rfl, rfl, ?_⟩
  show Event.connect s (st.nextConnId + 1) ∈
    (Router.call_tool { st with nextConnId := st.nextConnId + 1 } w s t2 p2).2.2
  simp only [Router.call_tool, hpool, hreg]
  by_cases hc : w.connectOk (st.nextConnId + 1)
  · simp only [hc, if_true]
    cases w.callRes (st.nextConnId + 1) t2 (p2.getD []) <;> simp
  · simp [hc]

/-- Witness for C2: on a fresh Router knowing `"a"`, with a world whose first
    constructed connection fails its handshake, the call fails with the connect
    error, the pool stays empty, and the retry attempts a fresh connect. -/
theorem Router.call_tool_connect_failure_instance :
    (routerA.call_tool wFailFirst "a" "t1" none).1 = .error .connectError ∧
    (routerA.call_tool wFailFirst "a" "t1" none).2.1.connections = routerA.connections ∧
    (routerA.call_tool wFailFirst "a" "t1" none).2.1.servers = routerA.servers ∧
    (routerA.call_tool wFailFirst "a" "t1" none).2.1.nextConnId = routerA.nextConnId + 1 ∧
    Event.connect "a" (routerA.nextConnId + 1) ∈
      ((routerA.call_tool wFailFirst "a" "t1" none).2.1.call_tool wFailFirst
        "a" "t2" none).2.2 :=
  Router.call_tool_connect_failure routerA wFailFirst "a" "t1" "t2" none none srvA
    rfl (by decide) rfl

theorem initAfterConfig_ok_shape (m : List (String × ServerConfig)) (env : Env)
    (fs : FS) (r : Router) (hok : (initAfterConfig m env fs).1 = .ok r) :
    r.connections = [] ∧ r.nextConnId = 0 := by
  unfold initAfterConfig at hok
  by_cases h1 : apiKeyMissing env
  · simp [h1] at hok
  · by_cases h2 : dataPathMissing env fs
    · simp [h1, h2] at hok
    · simp [h1, h2] at hok
      rw [← hok]
      exact ⟨rfl, rfl⟩

theorem initAfterConfig_no_connect (m : List (String × ServerConfig)) (env : Env)
    (fs : FS) (s : String) (cid : Nat) :
    Event.connect s cid ∉ (initAfterConfig m env fs).2 := by
  unfold initAfterConfig
  by_cases h1 : apiKeyMissing env <;> by_cases h2 : dataPathMissing env fs <;>
    simp [h1, h2]

/-- C7: however the Router is constructed, a successful construction yields an
    empty connection pool with zero constructed `MCPConnection` objects, and
    the construction trace contains no connect attempt. -/
theorem Router.init_lazy (config : ConfigInput) (env : Env) (fs : FS) (r : Router)
    (hok : (Router.init config env fs).1 = .ok r) :
    r.connections = [] ∧ r.nextConnId = 0 ∧
    ∀ s cid, Event.connect s cid ∉ (Router.init config env fs).2 := by
  cases config with
  | other => simp [Router.init] at hok
  | dict m =>
      have h := initAfterConfig_ok_shape m env fs r hok
      exact ⟨h.1, h.2, fun s cid => initAfterConfig_no_connect m env fs s cid⟩
  | path p =>
      cases halGet : alGet fs.files p with
      | some m =>
          have hred : Router.init (.path p) env fs = initAfterConfig m env fs := by
            simp [Router.init, halGet]
          rw [hred] at hok ⊢
          have h := initAfterConfig_ok_shape m env fs r hok
          exact ⟨h.1, h.2, fun s cid => initAfterConfig_no_connect m env fs s cid⟩
      | none =>
          have hred : Router.init (.path p) env fs = initAfterConfig [] env fs := by
            simp [Router.init, halGet]
          rw [hred] at hok ⊢
          have h := initAfterConfig_ok_shape [] env fs r hok
          exact ⟨h.1, h.2, fun s cid => initAfterConfig_no_connect [] env fs s cid⟩

/-- Witness for C7: constructing a Router from a config declaring server `"a"`
    (with credential and data file present) succeeds with an empty pool, zero
    connections constructed, and no connect attempt in its trace. -/
theorem Router.init_lazy_instance :
    (Router.init cfgDictA envOk fsData).1 = .ok routerA ∧
    routerA.connections = [] ∧ routerA.nextConnId = 0 ∧
    Event.connect "a" 0 ∉ (Router.init cfgDictA envOk fsData).2 :=
  ⟨rfl,
   (Router.init_lazy cfgDictA envOk fsData routerA rfl).1,
   (Router.init_lazy cfgDictA envOk fsData routerA rfl).2.1,
   (Router.init_lazy cfgDictA envOk fsData routerA rfl).2.2 "a" 0⟩

theorem initAfterConfig_missing_key (m : List (String × ServerConfig)) (env : Env)
    (fs : FS) (h : apiKeyMissing env = true) :
    (initAfterConfig m env fs).1 = .error .missingApiKey := by
  simp [initAfterConfig, h]

theorem initAfterConfig_missing_data (m : List (String × ServerConfig)) (env : Env)
    (fs : FS) (h1 : apiKeyMissing env = false) (h2 : dataPathMissing env fs = true) :
    (initAfterConfig m env fs).1 = .error .missingDataPath := by
  simp [initAfterConfig, h1, h2]

theorem init_as_initAfterConfig (config : ConfigInput) (env : Env) (fs : FS)
    (h : config ≠ ConfigInput.other) :
    ∃ m, Router.init config env fs = initAfterConfig m env fs := by
  cases config with
  | other => exact absurd rfl h
  | dict m => exact ⟨m, rfl⟩
  | path p =>
      cases halGet : alGet fs.files p with
      | some m => exact ⟨m, by simp [Router.init, halGet]⟩
      | none => exact ⟨[], by simp [Router.init, halGet]⟩

/-- C6: constructing from a nonexistent config path succeeds with an empty
    registry (given the mandatory runtime parameters), whereas a missing or
    empty credential, or a resolved tool-index data path that is empty or does
    not exist on the filesystem, makes construction fail with the
    corresponding configuration error. -/
theorem Router.init_config_handling :
    (∀ env fs p, fsExists fs p = false →
        apiKeyMissing env = false → dataPathMissing env fs = false →
        (Router.init (.path p) env fs).1 =
          .ok { connections := [], servers := [], nextConnId := 0 }) ∧
    (∀ config env fs, config ≠ ConfigInput.other → apiKeyMissing env = true →
        (Router.init config env fs).1 = .error .missingApiKey) ∧
    (∀ config env fs, config ≠ ConfigInput.other → apiKeyMissing env = false →
        dataPathMissing env fs = true →
        (Router.init config env fs).1 = .error .missingDataPath) := by
  refine ⟨?_, ?_, ?_⟩
  · intro env fs p hfs h1 h2
    have halGet : alGet fs.files p = none := by
      rw [fsExists] at hfs
      exact Option.not_isSome_iff_eq_none.mp (by simp [hfs])
    have hred : Router.init (.path p) env fs = initAfterConfig [] env fs := by
      simp [Router.init, halGet]
    rw [hred]
    simp [initAfterConfig, h1, h2, buildRegistry]
  · intro config env fs hcfg h1
    obtain ⟨m, hm⟩ := init_as_initAfterConfig config env fs hcfg
    rw [hm]
    exact initAfterConfig_missing_key m env fs h1
  · intro config env fs hcfg h1 h2
    obtain ⟨m, hm⟩ := init_as_initAfterConfig config env fs hcfg
    rw [hm]
    exact initAfterConfig_missing_data m env fs h1 h2

/-- Witness for C6: with credential and data file present, construction from
    the nonexistent path `"/missing.json"` yields an empty registry; removing
    the credential makes construction from a valid dict fail; with the
    credential present but no data file, construction fails on the data
    path. -/
theorem Router.init_config_handling_instance :
    (Router.init (.path "/missing.json") envOk fsData).1 =
      .ok { connections := [], servers := [], nextConnId := 0 } ∧
    (Router.init cfgDictA envNoKey fsData).1 = .error .missingApiKey ∧
    (Router.init cfgDictA envKeyOnly fsData).1 = .error .missingDataPath :=
  ⟨Router.init_config_handling.1 envOk fsData "/missing.json" rfl rfl rfl,
   Router.init_config_handling.2.1 cfgDictA envNoKey fsData (by decide) rfl,
   Router.init_config_handling.2.2 cfgDictA envKeyOnly fsData (by decide) rfl rfl⟩

theorem Router.call_tool_preserves_pool (st : Router) (w : World) (s1 t : String)
    (p : Option (List (String × String))) (s : String) (c : Nat)
    (h : alGet st.connections s = some c) :
    alGet (st.call_tool w s1 t p).2.1.connections s = some c := by
  cases h1 : alGet st.connections s1 with
  | some conn =>
      cases hr : w.callRes conn t (p.getD []) <;> simp [Router.call_tool, h1, hr, h]
  | none =>
      cases h2 : alGet st.servers s1 with
      | none => simp [Router.call_tool, h1, h2, h]
      | some srv =>
          have hne : s1 ≠ s := by
            intro he
            rw [he, h] at h1
            exact Option.noConfusion h1
          by_cases hc : w.connectOk st.nextConnId
          · cases hr : w.callRes st.nextConnId t (p.getD []) <;>
              simp [Router.call_tool, h1, h2, hc, hr, alGet_alSet_ne _ _ _ _ hne, h]
          · simp [Router.call_tool, h1, h2, hc, h]

theorem Router.call_tool_no_connect_of_pooled (st : Router) (w : World)
    (s : String) (c : Nat) (h : alGet st.connections s = some c)
    (s1 t : String) (p : Option (List (String × String))) (cid : Nat) :
    Event.connect s cid ∉ (st.call_tool w s1 t p).2.2 := by
  cases h1 : alGet st.connections s1 with
  | some conn =>
      cases hr : w.callRes conn t (p.getD []) <;> simp [Router.call_tool, h1, hr]
  | none =>
      have hne : s ≠ s1 := by
        intro he
        rw [← he, h] at h1
        exact Option.noConfusion h1
      cases h2 : alGet st.servers s1 with
      | none => simp [Router.call_tool, h1, h2]
      | some srv =>
          by_cases hc : w.connectOk st.nextConnId
          · cases hr : w.callRes st.nextConnId t (p.getD []) <;>
              simp [Router.call_tool, h1, h2, hc, hr, hne]
          · simp [Router.call_tool, h1, h2, hc, hne]

theorem Router.run_calls_pooled (st : Router) (w : World) (s : String) (c : Nat)
    (h : alGet st.connections s = some c)
    (reqs : List (String × String × Option (List (String × String)))) :
    alGet (Router.run_calls st w reqs).1.connections s = some c ∧
    ∀ cid, Event.connect s cid ∉ (Router.run_calls st w reqs).2 := by
  induction reqs generalizing st with
  | nil => exact ⟨h, by simp [Router.run_calls]⟩
  | cons req rest ih =>
      obtain ⟨s1, t, p⟩ := req
      have hpres := Router.call_tool_preserves_pool st w s1 t p s c h
      have ihh := ih (st.call_tool w s1 t p).2.1 hpres
      constructor
      · simpa [Router.run_calls] using ihh.1
      · intro cid
        simp only [Router.run_calls, List.mem_append, not_or]
        exact ⟨Router.call_tool_no_connect_of_pooled st w s c h s1 t p cid, ihh.2 cid⟩

theorem Router.call_tool_ok_pooled (st : Router) (w : World) (s t : String)
    (p : Option (List (String × String))) (r : String)
    (hok : (st.call_tool w s t p).1 = .ok r) :
    ∃ c, alGet (st.call_tool w s t p).2.1.connections s = some c := by
  cases h1 : alGet st.connections s with
  | some conn =>
      refine ⟨conn, ?_⟩
      cases hr : w.callRes conn t (p.getD []) <;> simp [Router.call_tool, h1, hr]
  | none =>
      cases h2 : alGet st.servers s with
      | none =>
          exfalso
          rw [Router.call_tool_unknown_server st w s t p h1 h2] at hok
          exact Except.noConfusion hok
      | some srv =>
          by_cases hc : w.connectOk st.nextConnId
          · refine ⟨st.nextConnId, ?_⟩
            cases hr : w.callRes st.nextConnId t (p.getD []) <;>
              simp [Router.call_tool, h1, h2, hc, hr, alGet_alSet_self]
          · exfalso
            have herr : (st.call_tool w s t p).1 = .error .connectError := by
              simp [Router.call_tool, h1, h2, hc]
            rw [herr] at hok
            exact Except.noConfusion hok

/-- C1: once a `call_tool` for server `s` has succeeded, a connection for `s`
    is stored in the pool, and across any further sequence of non-concurrent
    `call_tool` invocations that same connection stays pooled and no further
    connect for `s` is ever attempted. -/
theorem Router.call_tool_single_connection (st : Router) (w : World) (s t : String)
    (p : Option (List (String × String))) (r : String)
    (hok : (st.call_tool w s t p).1 = .ok r) :
    ∃ c, alGet (st.call_tool w s t p).2.1.connections s = some c ∧
      ∀ reqs,
        alGet (Router.run_calls (st.call_tool w s t p).2.1 w reqs).1.connections s = some c ∧
        ∀ cid, Event.connect s cid ∉ (Router.run_calls (st.call_tool w s t p).2.1 w reqs).2 := by
  obtain ⟨c, hc⟩ := Router.call_tool_ok_pooled st w s t p r hok
  exact ⟨c, hc, fun reqs => Router.run_calls_pooled _ w s c hc reqs⟩

/-- Witness for C1: after a successful `call_tool` to `"a"` pooled connection 0,
    a further call to `"a"` keeps connection 0 pooled and its trace contains no
    connect attempt for `"a"`. -/
theorem Router.call_tool_single_connection_instance :
    alGet (routerA.call_tool wTriv "a" "t1" none).2.1.connections "a" = some 0 ∧
    alGet (Router.run_calls (routerA.call_tool wTriv "a" "t1" none).2.1 wTriv
            [("a", "t2", none)]).1.connections "a" = some 0 ∧
    Event.connect "a" 0 ∉ (Router.run_calls (routerA.call_tool wTriv "a" "t1" none).2.1 wTriv
            [("a", "t2", none)]).2 := by
  obtain ⟨c, h1, h2⟩ :=
    Router.call_tool_single_connection routerA wTriv "a" "t1" none "res" rfl
  have hc : c = 0 := by
    have h0 : (some c : Option Nat) = some 0 := by rw [← h1]; rfl
    exact Option.some.inj h0
  subst hc
  exact ⟨h1, (h2 [("a", "t2", none)]).1, (h2 [("a", "t2", none)]).2 0⟩

/-- Counterexample to C4: after a successful `call_tool` to `"a"` and a
    `shutdown`, the pool still holds connection 0 (it is not cleared), and the
    next `call_tool` for `"a"` reuses that closed connection — its trace is a
    bare tool call with no connect, so no fresh connection is constructed. -/
theorem Router.aclose_does_not_clear_pool :
    ((routerA.call_tool wTriv "a" "t1" none).2.1.aclose wTriv).2.1.connections =
      [("a", 0)] ∧
    (((routerA.call_tool wTriv "a" "t1" none).2.1.aclose wTriv).2.1.call_tool wTriv
        "a" "t2" none).2.2 = [Event.toolCall "a" "t2" 0] := by
  decide

/-- C4 amended: after `shutdown()`, every established connection has had close
    invoked on it exactly once, but the pool is NOT cleared — the Router state
    is unchanged — so a subsequent `call_tool` for a previously-used server
    reuses the closed connection instead of constructing a fresh one. -/
theorem Router.aclose_each_close_once_pool_kept (st : Router) (w : World)
    (hnd : (st.connections.map Prod.snd).Nodup) :
    (∀ kv ∈ st.connections, ((st.aclose w).2.2).count (Event.close kv.2) = 1) ∧
    (st.aclose w).2.1 = st ∧
    ∀ s c t p, alGet st.connections s = some c →
      ((st.aclose w).2.1.call_tool w s t p).2.2 = [Event.toolCall s t c] := by
  refine ⟨?_, rfl, ?_⟩
  · intro kv hkv
    have hinj : Function.Injective Event.close := by
      intro a b hab
      injection hab
    have hmap : (st.aclose w).2.2 = (st.connections.map Prod.snd).map Event.close := by
      show st.connections.map (fun kv => Event.close kv.2) = _
      rw [List.map_map]
      rfl
    rw [hmap, List.count_map_of_injective _ Event.close hinj kv.2]
    exact List.count_eq_one_of_mem hnd (List.mem_map.mpr ⟨kv, hkv, rfl⟩)
  · intro s c t p h
    show ((st.call_tool w s t p)).2.2 = [Event.toolCall s t c]
    cases hr : w.callRes c t (p.getD []) <;> simp [Router.call_tool, h, hr]

/-- Witness for C4 amended: shutting down the two-connection Router closes
    connection 0 exactly once, leaves the state unchanged, and the next call
    for `"a"` reuses closed connection 0. -/
theorem Router.aclose_each_close_once_pool_kept_instance :
    ((routerAB.aclose wTriv).2.2).count (Event.close 0) = 1 ∧
    (routerAB.aclose wTriv).2.1 = routerAB ∧
    ((routerAB.aclose wTriv).2.1.call_tool wTriv "a" "t2" none).2.2 =
      [Event.toolCall "a" "t2" 0] :=
  ⟨(Router.aclose_each_close_once_pool_kept routerAB wTriv (by decide)).1
      ("a", 0) (by decide),
   (Router.aclose_each_close_once_pool_kept routerAB wTriv (by decide)).2.1,
   (Router.aclose_each_close_once_pool_kept routerAB wTriv (by decide)).2.2
      "a" 0 "t2" none rfl⟩

/-- Counterexample to C3: shutting down the Router holding connection 0 (whose
    close fails after one step) and connection 1 (whose close succeeds after
    two steps), under the complete schedule [0, 1, 1], the gather resolves with
    the failure at time 1 while connection 1 only finishes at time 3 — `aclose`
    reports the aggregate failure strictly before all close attempts have
    finished, contrary to the claim. -/
theorem Router.aclose_reports_before_all_finished :
    completeSched (routerAB.acloseJobs wCloseAFails) [0, 1, 1] = true ∧
    finishTime 1 (jobSteps (routerAB.acloseJobs wCloseAFails) 1) [0, 1, 1] = 3 ∧
    gatherTime (routerAB.acloseJobs wCloseAFails) [0, 1, 1] = 1 ∧
    gatherTime (routerAB.acloseJobs wCloseAFails) [0, 1, 1] <
      allDoneTime (routerAB.acloseJobs wCloseAFails) [0, 1, 1] := by
  decide

theorem finishTime_le_length (i : Nat) (need : Nat) (sched : List Nat)
    (h : need ≤ sched.count i) : finishTime i need sched ≤ sched.length := by
  induction sched generalizing need with
  | nil => cases need <;> simp [finishTime]
  | cons j rest ih =>
      cases need with
      | zero => simp [finishTime]
      | succ n =>
          simp only [finishTime, List.length_cons]
          by_cases hj : j = i
          · have hcount : rest.count i + 1 = (j :: rest).count i := by
              simp [List.count_cons, hj]
            have hn : n ≤ rest.count i := by omega
            have := ih n hn
            simp [hj]
            omega
          · have hcount : (j :: rest).count i = rest.count i := by
              simp [List.count_cons, hj]
            have hn : n + 1 ≤ rest.count i := by omega
            have := ih (n + 1) hn
            simp [hj]
            omega

theorem le_foldl_max (l : List Nat) (f : Nat → Nat) (init : Nat) :
    init ≤ l.foldl (fun m x => max m (f x)) init := by
  induction l generalizing init with
  | nil => exact Nat.le_refl init
  | cons a rest ih =>
      exact Nat.le_trans (Nat.le_max_left init (f a)) (ih (max init (f a)))

theorem mem_le_foldl_max (l : List Nat) (f : Nat → Nat) (init : Nat) (a : Nat)
    (ha : a ∈ l) : f a ≤ l.foldl (fun m x => max m (f x)) init := by
  induction l generalizing init with
  | nil => exact absurd ha (List.not_mem_nil a)
  | cons b rest ih =>
      rcases List.mem_cons.mp ha with hab | ha2
      · subst hab
        exact Nat.le_trans (Nat.le_max_right init (f a)) (le_foldl_max rest f _)
      · exact ih _ ha2

theorem foldl_min_le_init (l : List Nat) (init : Nat) :
    l.foldl min init ≤ init := by
  induction l generalizing init with
  | nil => exact Nat.le_refl init
  | cons a rest ih =>
      exact Nat.le_trans (ih (min init a)) (Nat.min_le_left init a)

theorem finishTime_le_allDoneTime (jobs : List CloseJob) (sched : List Nat)
    (i : Nat) (hi : i < jobs.length) :
    finishTime i (jobSteps jobs i) sched ≤ allDoneTime jobs sched := by
  exact mem_le_foldl_max (List.range jobs.length)
    (fun j => finishTime j (jobSteps jobs j) sched) 0 i (List.mem_range.mpr hi)

theorem gatherTime_le_allDoneTime (jobs : List CloseJob) (sched : List Nat) :
    gatherTime jobs sched ≤ allDoneTime jobs sched := by
  unfold gatherTime
  cases hf : failingIdxs jobs with
  | nil => exact Nat.le_refl _
  | cons i rest =>
      have hi : i < jobs.length := by
        have hmem : i ∈ failingIdxs jobs := by
          rw [hf]
          exact List.mem_cons_self i rest
        have := List.mem_filter.mp hmem
        exact List.mem_range.mp this.1
      exact Nat.le_trans (foldl_min_le_init _ _)
        (finishTime_le_allDoneTime jobs sched i hi)

/-- C3 amended: under any complete schedule (`asyncio.gather` does not cancel
    sibling tasks, so every close coroutine runs all its steps even when
    another close fails), every close is started (at least one step is
    scheduled) and finishes within the schedule; but the gather — and hence
    `aclose` — may resolve no later than, and possibly strictly before, the
    time at which all close attempts have finished: the failure is reported at
    the first failing close, not after all attempts. -/
theorem Router.aclose_gather_semantics (st : Router) (w : World) (sched : List Nat)
    (hcomp : completeSched (st.acloseJobs w) sched = true) :
    (∀ i, i < (st.acloseJobs w).length → 1 ≤ jobSteps (st.acloseJobs w) i →
       1 ≤ sched.count i ∧
       finishTime i (jobSteps (st.acloseJobs w) i) sched ≤ sched.length) ∧
    gatherTime (st.acloseJobs w) sched ≤ allDoneTime (st.acloseJobs w) sched := by
  constructor
  · intro i hi hsteps
    have h := hcomp
    rw [completeSched, Bool.and_eq_true] at h
    have hcount : sched.count i = jobSteps (st.acloseJobs w) i := by
      have hall := List.all_eq_true.mp h.1 i (List.mem_range.mpr hi)
      exact of_decide_eq_true hall
    constructor
    · omega
    · exact finishTime_le_length i _ sched (Nat.le_of_eq hcount.symm)
  · exact gatherTime_le_allDoneTime _ sched

/-- Witness for C3 amended: under the schedule [0, 1, 1] for the
    two-connection Router whose first close fails, connection 1's close is
    started and finishes within the schedule, and the gather resolves no later
    than the all-finished time. -/
theorem Router.aclose_gather_semantics_instance :
    (1 ≤ List.count 1 [0, 1, 1] ∧
      finishTime 1 (jobSteps (routerAB.acloseJobs wCloseAFails) 1) [0, 1, 1] ≤ 3) ∧
    gatherTime (routerAB.acloseJobs wCloseAFails) [0, 1, 1] ≤
      allDoneTime (routerAB.acloseJobs wCloseAFails) [0, 1, 1] :=
  ⟨(Router.aclose_gather_semantics routerAB wCloseAFails [0, 1, 1] (by decide)).1
      1 (by decide) (by decide),
   (Router.aclose_gather_semantics routerAB wCloseAFails [0, 1, 1] (by decide)).2⟩

/-- C9: there is an interleaving of two concurrent `call_tool` coroutines for
    the same not-yet-connected registered server `"a"` — run A's first step,
    then B's first step, then their second steps — in which both observe the
    pool as absent and both attempt a connect, so two connection objects (0
    and 1) are constructed for `"a"`, and B's stored connection 1 overwrites
    A's stored connection 0 in the pool while A keeps using connection 0:
    the at-most-one-connection-per-name invariant is violated. -/
theorem raceRun_two_connections :
    (raceRun "a" "t" raceInit [true, false, true, false]).nextConnId = 2 ∧
    alGet (raceRun "a" "t" raceInit [true, false, true, false]).pool "a" = some 1 ∧
    (raceRun "a" "t" raceInit [true, false, true, false]).pa = .finished 0 ∧
    (raceRun "a" "t" raceInit [true, false, true, false]).pb = .finished 1 ∧
    (raceRun "a" "t" raceInit [true, false, true, false]).trace.count
      (Event.connect "a" 0) = 1 ∧
    (raceRun "a" "t" raceInit [true, false, true, false]).trace.count
      (Event.connect "a" 1) = 1 := by
  decide
